import Mathlib

/-
Verification of the rpc-client core (`lib/rpc-client/client.js`):
the client lifecycle state machine, the proxy interception pipeline
(`proxyCB`), direct invocation (`rpcInvoke`), the construction-time
namespace-registry build (`generateProxies` / `createNamespace`), and the
factory (`module.exports.create` / `checkParams`).

The embedding is a shallow one.  JavaScript objects used as string-keyed
maps become functions `String → Option _`; the mutable `this.state` field
becomes an explicit field threaded through pure transition functions;
observable side effects (invoking the router, invoking the caller's
completion handler, dispatching to the mail station, console logging)
become an explicit event list; a thrown exception becomes a `some`
message in the `thrown` field of an outcome record.  The external
collaborators (mail station, router strategy, module loader) are
parameters: the router is a pure function that reports its single
completion as an `Except`, the loader is a function returning an
optional module, and the station is represented only by the events
that reach it.
-/

namespace RpcClient

/-- Client state constants, exactly the numeric codes of the source
(lines 19-21): `STATE_INITED = 1`, `STATE_STARTED = 2`, `STATE_CLOSED = 3`. -/
def STATE_INITED : Nat := 1

/-- Client state `STARTED` (source line 20). -/
def STATE_STARTED : Nat := 2

/-- Client state `CLOSED` (source line 21). -/
def STATE_CLOSED : Nat := 3

/-- The rpc message (call envelope) built by `proxyCB` (lines 148-149):
`\x7bnamespace, serverType, service, method, args\x7d`.  The `namespace`
field is called `ns` here because `namespace` is a Lean keyword.  Argument
values are opaque, of type `α`. -/
structure Msg (α : Type) where
  ns : String
  serverType : String
  service : String
  method : String
  args : List α
deriving DecidableEq

/-- The attachment captured at proxy-generation time: the
`\x7bnamespace, serverType, path\x7d` descriptor passed through
`Loader.load(item.path, context, item, loadedCB)` and reaching `proxyCB`
as `attach` (so `attach.namespace` / `attach.serverType`, lines 141-148). -/
structure PathItem where
  ns : String
  serverType : String
  path : String
deriving DecidableEq

/-- The namespace registry (`proxies` in `generateProxies`): a JavaScript
object keyed by namespace whose values are objects keyed by server type.
Missing keys are `none`. -/
abbrev Registry (μ : Type) : Type := String → Option (String → Option μ)

/-- The empty registry, `var proxies = \x7b\x7d` (line 133). -/
def emptyRegistry (μ : Type) : Registry μ := fun _ => none

/-- Point update of a registry at one namespace key. -/
def setNs (r : Registry μ) (ns : String) (inner : String → Option μ) : Registry μ :=
  fun k => if k = ns then some inner else r k

/-- Source lines 183-185:
`proxies[namespace] = proxies[namespace] || \x7b\x7d` — keep an existing
inner object, otherwise install an empty one. -/
def createNamespace (ns : String) (r : Registry μ) : Registry μ :=
  match r ns with
  | some _ => r
  | none => setNs r ns (fun _ => none)

/-- Source line 176: `proxies[item.namespace][item.serverType] = m`.
If the namespace key is absent this is a no-op here (in JavaScript it
would throw; `generateProxies` always calls `createNamespace` first, so
the branch is unreachable). -/
def storeStub (r : Registry μ) (ns st : String) (m : μ) : Registry μ :=
  match r ns with
  | some inner => setNs r ns (fun k => if k = st then some m else inner k)
  | none => r

/-- Registry lookup `proxies[ns][st]`, `none` when either key is absent. -/
def regLookup (r : Registry μ) (ns st : String) : Option μ :=
  match r ns with
  | some inner => inner st
  | none => none

/-- One iteration of the `generateProxies` loop body (lines 171-178):
`m = Loader.load(item.path, context, item, loadedCB); if (m) \x7b
createNamespace(item.namespace, proxies);
proxies[item.namespace][item.serverType] = m; \x7d`.  The loader (an
external collaborator) is the parameter `load`; the stub object `m` it
yields is opaque, of type `μ`. -/
def buildStep (load : PathItem → Option μ) (proxies : Registry μ) (item : PathItem) :
    Registry μ :=
  match load item with
  | some m => storeStub (createNamespace item.ns proxies) item.ns item.serverType m
  | none => proxies

/-- `generateProxies` (lines 132-181): fold the loop body over the
caller-supplied path descriptors, starting from the empty registry. -/
def generateProxies (load : PathItem → Option μ) (paths : List PathItem) : Registry μ :=
  paths.foldl (buildStep load) (emptyRegistry μ)

/-- The rpc client (lines 26-35).  `servers` is the opaque server
registry `opts.servers` (type `σ`); `route` is the single `route`
operation of `this.router` (an external strategy that must call its
completion exactly once, modelled as a pure `Except`: `Except.error` for a
routing error delivered to the completion, `Except.ok` for a chosen server
id); `proxies` is the namespace registry built at construction. -/
structure Client (α σ μ : Type) where
  state : Nat
  servers : σ
  route : Msg α → α → σ → Except String String
  proxies : Registry μ

/-- Observable events of one intercepted call: the `console.error` log of
an arity violation (line 141, carrying the namespace, server type, service
and method it names), the router invocation (line 151), an invocation of
the original completion handler with a routing error
(`utils.invokeCallback(cb, err)`, line 153), and a dispatch to the mail
station (`this._station.dispatch(serverId, msg, null, cb)`, line 97). -/
inductive Event (α : Type) where
  | logArityError (ns st svc mth : String)
  | routerRoute (msg : Msg α) (routeParam : α)
  | cbRouteErr (e : String)
  | stationDispatch (serverId : String) (msg : Msg α)
deriving DecidableEq

/-- Outcome of one intercepted or direct call: the events that occurred,
in order, and the message of the exception it threw, if any. -/
structure POutcome (α : Type) where
  events : List (Event α)
  thrown : Option String
deriving DecidableEq

/-- `Client.prototype.rpcInvoke` (lines 93-98): throw when the client is
not `STARTED`, otherwise dispatch `(serverId, msg)` to the station, which
then owns the completion handler. -/
def rpcInvoke (c : Client α σ μ) (serverId : String) (msg : Msg α) : POutcome α :=
  if c.state ≠ STATE_STARTED then
    { events := [],
      thrown := some "[pomelo-rpc] fail to do rpc invoke for client is not running" }
  else
    { events := [Event.stationDispatch serverId msg], thrown := none }

/-- `proxyCB` (lines 135-159), the interception routine: precondition
check on the client state; arity check (`args.length < 2` logs and
returns); strip the leading routing hint (`args.shift()`) and the trailing
completion handler (`args.pop()`); build the message; invoke the router;
in the router's completion either forward a routing error to the original
handler or call `rpcInvoke`.  The `match args with | [] => ...` branch is
unreachable: it is guarded by the arity check. -/
def proxyCB (c : Client α σ μ) (serviceName methodName : String)
    (args : List α) (attach : PathItem) : POutcome α :=
  if c.state ≠ STATE_STARTED then
    { events := [],
      thrown := some "[pomelo-rpc] fail to invoke rpc proxy for client is not running" }
  else if args.length < 2 then
    { events := [Event.logArityError attach.ns attach.serverType serviceName methodName],
      thrown := none }
  else
    match args with
    | [] => { events := [], thrown := none }
    | routeParam :: rest =>
      let stripped := rest.dropLast
      let msg : Msg α :=
        { ns := attach.ns, serverType := attach.serverType,
          service := serviceName, method := methodName, args := stripped }
      match c.route msg routeParam c.servers with
      | Except.error err =>
        { events := [Event.routerRoute msg routeParam, Event.cbRouteErr err],
          thrown := none }
      | Except.ok serverId =>
        let inv := rpcInvoke c serverId msg
        { events := Event.routerRoute msg routeParam :: inv.events,
          thrown := inv.thrown }

/-- Modelled from the spec: the stub objects are built by `Proxy.create`
(file `lib/util/proxy`, not present among the sources); per §4.2 of the
specification, invoking a stub method "triggers the interception routine
with the method's declared service name, method name, the full argument
list as supplied by the caller, and a fixed attachment containing
\x7bnamespace, serverType\x7d captured at generation time" — i.e. a stub
call is exactly a `proxyCB` call with the generation-time descriptor. -/
def stubCall (c : Client α σ μ) (attach : PathItem)
    (serviceName methodName : String) (args : List α) : POutcome α :=
  proxyCB c serviceName methodName args attach

/-- The events that invoke the original completion handler: a routing
error forwarded by the interception routine, or a station dispatch, whose
completion the station delivers (by its contract, exactly once). -/
def completions (evs : List (Event α)) : List (Event α) :=
  evs.filter (fun e =>
    match e with
    | Event.cbRouteErr _ => true
    | Event.stationDispatch _ _ => true
    | _ => false)

/-- What the original completion handler receives when the station is the
echo stub of the round-trip property: a station dispatch of
`(serverId, msg)` is echoed back to the handler as `(serverId, msg)`
(`Sum.inr`), and a forwarded routing error arrives as the error itself
(`Sum.inl`). -/
def echoDoneCalls (evs : List (Event α)) : List (String ⊕ (String × Msg α)) :=
  evs.filterMap (fun e =>
    match e with
    | Event.cbRouteErr err => some (Sum.inl err)
    | Event.stationDispatch serverId msg => some (Sum.inr (serverId, msg))
    | _ => none)

/-- Observable events of the lifecycle operations: the station's start
operation being invoked (line 52), the `console.error` log of a failed
start (line 54), the caller's completion handler invoked with an error
(lines 47 and 55) or with no error (line 59), the `console.warn` of a
stop outside `STARTED` (line 78), and the station's stop operation with
its force flag (line 82). -/
inductive LifeEvent where
  | stationStart
  | logStartFail (e : String)
  | cbErr (e : String)
  | cbOk
  | warnNotRunning
  | stationStop (force : Bool)
deriving DecidableEq

/-- `Client.prototype.start` (lines 45-61).  The external station's start
outcome is the parameter `stationErr` (`none` for success): when the
state is beyond `INITED` the completion handler immediately gets the
"rpc client has started." error and the station is never invoked;
otherwise the station is started and, on success, the state becomes
`STARTED` before the handler is invoked with no error; on failure the
state is left unchanged. -/
def start (c : Client α σ μ) (stationErr : Option String) :
    Client α σ μ × List LifeEvent :=
  if c.state > STATE_INITED then
    (c, [LifeEvent.cbErr "rpc client has started."])
  else
    match stationErr with
    | some err =>
      (c, [LifeEvent.stationStart, LifeEvent.logStartFail err, LifeEvent.cbErr err])
    | none =>
      ({ c with state := STATE_STARTED }, [LifeEvent.stationStart, LifeEvent.cbOk])

/-- `Client.prototype.stop` (lines 76-83): outside `STARTED` it only
warns; from `STARTED` it sets the state to `CLOSED` (line 81) and then
delegates to the station's stop with the same force flag (line 82). -/
def stop (c : Client α σ μ) (force : Bool) : Client α σ μ × List LifeEvent :=
  if c.state ≠ STATE_STARTED then
    (c, [LifeEvent.warnNotRunning])
  else
    ({ c with state := STATE_CLOSED }, [LifeEvent.stationStop force])

/-- The operations application code can perform on a client after
construction: `start` (with the station's outcome for that attempt),
`stop`, a direct `rpcInvoke`, a stub call, and the `before`/`after`
filter registrations (pure delegation to the station, lines 100-106). -/
inductive Op (α : Type) where
  | opStart (stationErr : Option String)
  | opStop (force : Bool)
  | opRpcInvoke (serverId : String) (msg : Msg α)
  | opStubCall (svc mth : String) (args : List α) (attach : PathItem)
  | opBefore
  | opAfter
deriving DecidableEq

/-- The client resulting from one operation.  `rpcInvoke` and stub calls
read the state but never write it (they throw or dispatch); `before` and
`after` only delegate to the station. -/
def step (c : Client α σ μ) (op : Op α) : Client α σ μ :=
  match op with
  | Op.opStart e => (start c e).1
  | Op.opStop f => (stop c f).1
  | Op.opRpcInvoke _ _ => c
  | Op.opStubCall _ _ _ _ => c
  | Op.opBefore => c
  | Op.opAfter => c

/-- The client after a sequence of operations. -/
def runOps (c : Client α σ μ) (ops : List (Op α)) : Client α σ μ :=
  ops.foldl step c

/-- Construction options (`opts`, §6 of the specification and lines
211-218): `paths` is `Option` because the constructor reads
`opts.paths.length`, which throws a `TypeError` when `paths` is absent;
`servers` is stored untouched, so a missing `servers` is modelled by
instantiating `σ` with an `Option` type; `router` defaults to the
built-in strategy when absent (`opts.router || router`, line 29). -/
structure JsOpts (α σ μ : Type) where
  paths : Option (List PathItem)
  servers : σ
  router : Option (Msg α → α → σ → Except String String)

/-- `module.exports.create` (lines 220-222): it is exactly
`new Client(opts)` — it performs NO validation (in particular it never
calls `checkParams`).  The constructor (lines 26-35) stores `servers`
and the router, builds the namespace registry from `opts.paths` (throwing
a `TypeError` when `paths` is absent, since `generateProxies` reads
`paths.length`), and sets the state to `INITED`. -/
def create (defaultRouter : Msg α → α → σ → Except String String)
    (load : PathItem → Option μ) (opts : JsOpts α σ μ) :
    Except String (Client α σ μ) :=
  match opts.paths with
  | none => Except.error "TypeError: cannot read length of undefined paths"
  | some paths =>
    Except.ok
      { state := STATE_INITED,
        servers := opts.servers,
        route := opts.router.getD defaultRouter,
        proxies := generateProxies load paths }

/-- `checkParams` (lines 192-207), the validation helper the factory
never invokes: it reports an error when `opts.paths` is absent or empty,
or when `opts.servers` is absent or has no positive `length` (the
truthiness of `opts.servers.length` is the parameter `serversLen`:
`none` models a missing `servers` or one without a `length` property). -/
def checkParams (paths : Option (List PathItem)) (serversLen : Option Nat) :
    Option String :=
  match paths with
  | none => some "opts.paths should not be empty."
  | some ps =>
    if ps.length = 0 then some "opts.paths should not be empty."
    else
      match serversLen with
      | none => some "opts.servers should not be empty."
      | some n =>
        if n = 0 then some "opts.servers should not be empty." else none

/-- The message carried by the router invocation of an intercepted call,
if the call reached the router: `proxyCB` emits the router event first in
both completion branches. -/
def routedMsg (o : POutcome α) : Option (Msg α) :=
  match o.events with
  | Event.routerRoute m _ :: _ => some m
  | _ => none

/-- One step of the client state field moving forward along the chain
`INITED → STARTED → CLOSED`: it either stays put or takes one of the two
forward edges. -/
def StepForward (s s2 : Nat) : Prop :=
  s2 = s ∨ (s = STATE_INITED ∧ s2 = STATE_STARTED)
    ∨ (s = STATE_STARTED ∧ s2 = STATE_CLOSED)

/-- A router stub that always resolves to the fixed server id `"s1"`
(used to exercise the theorems on concrete inputs). -/
def routeOkS1 : Msg Nat → Nat → Unit → Except String String :=
  fun _ _ _ => Except.ok "s1"

/-- A concrete client in state `STARTED`. -/
def clientStarted : Client Nat Unit Unit :=
  { state := STATE_STARTED, servers := (), route := routeOkS1,
    proxies := emptyRegistry Unit }

/-- A concrete client in state `INITED`, exactly as produced by `create`
on an empty path list. -/
def clientInited : Client Nat Unit Unit :=
  { state := STATE_INITED, servers := (), route := routeOkS1,
    proxies := emptyRegistry Unit }

/-- A concrete client in state `CLOSED`. -/
def clientClosed : Client Nat Unit Unit :=
  { state := STATE_CLOSED, servers := (), route := routeOkS1,
    proxies := emptyRegistry Unit }

/-- A loader stub that yields no module for any descriptor. -/
def loadU : PathItem → Option Unit := fun _ => none

/-- Concrete construction options with an empty path list. -/
def optsW : JsOpts Nat Unit Unit :=
  { paths := some [], servers := (), router := none }

/-- A router stub over an absent (`Option`-valued) server registry, for
exercising `create` on options whose `servers` field is missing. -/
def routeOkOU : Msg Nat → Nat → Option Unit → Except String String :=
  fun _ _ _ => Except.ok "s1"

/-- A loader stub (over the absent-registry option type) that yields no
module. -/
def loadOU : PathItem → Option Unit := fun _ => none

/-- A loader stub that yields, for every descriptor, a module identified
by the descriptor's path (so that distinct descriptors yield observably
distinct stubs). -/
def pathStubLoad : PathItem → Option String := fun item => some item.path

/-- A concrete client whose stubs are `String`-identified, in state
`INITED`. -/
def clientWS : Client Nat Unit String :=
  { state := STATE_INITED, servers := (),
    route := fun _ _ _ => Except.ok "s1", proxies := emptyRegistry String }

/-- A concrete registry holding one (empty) namespace `"n"`. -/
def regW : Registry String := setNs (emptyRegistry String) "n" (fun _ => none)

/-- C1: on a client in state STARTED whose router always resolves to the
fixed `serverId` and with the echo station, a stub call
`registry[ns][type].method(hint, a, b, done)` invokes `done` exactly once,
with that `serverId` and the envelope
`\x7bnamespace: ns, serverType: type, service: svc, method: mth,
args: [a, b]\x7d`, and throws nothing. -/
theorem roundtrip_fixed_router_echo_station {α σ μ : Type}
    (ns st pth svc mth sid : String) (hint a b done : α)
    (servers : σ) (proxies : Registry μ) :
    echoDoneCalls (stubCall
        { state := STATE_STARTED, servers := servers,
          route := fun _ _ _ => Except.ok sid, proxies := proxies }
        { ns := ns, serverType := st, path := pth } svc mth
        [hint, a, b, done]).events
      = [Sum.inr (sid,
          { ns := ns, serverType := st, service := svc, method := mth,
            args := [a, b] })] ∧
    (stubCall
        { state := STATE_STARTED, servers := servers,
          route := fun _ _ _ => Except.ok sid, proxies := proxies }
        { ns := ns, serverType := st, path := pth } svc mth
        [hint, a, b, done]).thrown = none :=
  ⟨rfl, rfl⟩

/-- C6: `module.exports.create` performs no validation — with an empty
`paths` list and a missing `servers` field, construction succeeds and
returns a client, even though the (never-invoked) `checkParams` helper
would have rejected exactly these options. -/
theorem create_skips_validation :
    (create routeOkOU loadOU
        { paths := some [], servers := (none : Option Unit),
          router := none }).isOk = true ∧
    checkParams (some []) none = some "opts.paths should not be empty." :=
  ⟨rfl, rfl⟩

/-- C8: from state STARTED, `stop force` moves the state to CLOSED and
delegates to the station's stop with the same force flag; in any other
state it leaves the client untouched and only warns; and a second `stop`
right after a first one is always a warning-only no-op, regardless of
either force flag. -/
theorem stop_transitions_and_idempotent {α σ μ : Type}
    (c : Client α σ μ) (force force2 : Bool) :
    stop c force =
      (if c.state = STATE_STARTED then
        ({ c with state := STATE_CLOSED }, [LifeEvent.stationStop force])
      else
        (c, [LifeEvent.warnNotRunning])) ∧
    stop (stop c force).1 force2 =
      ((stop c force).1, [LifeEvent.warnNotRunning]) := by
  constructor
  · by_cases h : c.state = STATE_STARTED <;> simp [stop, h]
  · by_cases h : c.state = STATE_STARTED
    · simp [stop, h, STATE_STARTED, STATE_CLOSED]
    · simp [stop, h]

/-- C10 (counterexample): a stub stored at `registry["n"]["t"]` for the
first descriptor IS replaced by the processing of a later descriptor with
the same namespace and server type — the build pass of the two-descriptor
list is exactly one more `buildStep` applied to the one-descriptor
registry, and it changes the stored stub from `"p1"` to `"p2"`. -/
theorem later_duplicate_descriptor_overwrites :
    regLookup (generateProxies pathStubLoad
        [{ ns := "n", serverType := "t", path := "p1" }]) "n" "t"
      = some "p1" ∧
    generateProxies pathStubLoad
        [{ ns := "n", serverType := "t", path := "p1" },
         { ns := "n", serverType := "t", path := "p2" }]
      = buildStep pathStubLoad
          (generateProxies pathStubLoad
            [{ ns := "n", serverType := "t", path := "p1" }])
          { ns := "n", serverType := "t", path := "p2" } ∧
    regLookup (generateProxies pathStubLoad
        [{ ns := "n", serverType := "t", path := "p1" },
         { ns := "n", serverType := "t", path := "p2" }]) "n" "t"
      = some "p2" ∧
    ("p1" : String) ≠ "p2" := by
  refine ⟨rfl, rfl, rfl, by decide⟩

/-- On a client in state STARTED a call with the argument shape
`hint :: mid ++ [cbv]` strips the leading hint and the trailing handler,
builds the envelope with `args := mid`, reaches the router, and completes
through exactly one of the router-error / station-dispatch branches. -/
theorem proxyCB_started_spec {α σ μ : Type} (c : Client α σ μ)
    (svc mth : String) (attach : PathItem) (hint : α) (mid : List α) (cbv : α)
    (h : c.state = STATE_STARTED) :
    proxyCB c svc mth (hint :: mid ++ [cbv]) attach =
      (match c.route
          { ns := attach.ns, serverType := attach.serverType,
            service := svc, method := mth, args := mid } hint c.servers with
       | Except.error err =>
         { events := [Event.routerRoute
              { ns := attach.ns, serverType := attach.serverType,
                service := svc, method := mth, args := mid } hint,
             Event.cbRouteErr err], thrown := none }
       | Except.ok serverId =>
         { events := [Event.routerRoute
              { ns := attach.ns, serverType := attach.serverType,
                service := svc, method := mth, args := mid } hint,
             Event.stationDispatch serverId
              { ns := attach.ns, serverType := attach.serverType,
                service := svc, method := mth, args := mid }],
           thrown := none }) := by
  have hlen : ¬ (hint :: mid ++ [cbv]).length < 2 := by
    simp [List.length_append]
  simp only [proxyCB, rpcInvoke, h, hlen, ne_eq, not_true_eq_false, if_false,
    ite_false, List.dropLast_append_cons, List.append_nil]
  split
  next heq => exact absurd heq (by simp)
  next routeParam rest heq =>
    obtain ⟨rfl, rfl⟩ := List.cons.inj heq
    simp

/-- C2: on a STARTED client, a stub call whose arguments are
`hint :: mid ++ [cbv]` (any count ≥ 2) builds an envelope whose `args`
is exactly `mid` — the original argument list with precisely the first
element (routing hint) and the last element (completion handler)
removed. -/
theorem envelope_args_strip_first_last {α σ μ : Type} (c : Client α σ μ)
    (svc mth : String) (attach : PathItem) (hint : α) (mid : List α) (cbv : α)
    (h : c.state = STATE_STARTED) :
    routedMsg (proxyCB c svc mth (hint :: mid ++ [cbv]) attach)
      = some { ns := attach.ns, serverType := attach.serverType,
               service := svc, method := mth, args := mid } ∧
    mid = ((hint :: mid ++ [cbv]).drop 1).dropLast := by
  constructor
  · rw [proxyCB_started_spec c svc mth attach hint mid cbv h]
    split <;> rfl
  · simp

/-- C2 witness: on a concrete started client, a call with arguments
`[0, 7, 8, 9]` yields the envelope with `args = [7, 8]`. -/
theorem envelope_args_strip_witness :
    routedMsg (proxyCB clientStarted "chatRemote" "kick"
        ((0 : Nat) :: [7, 8] ++ [9])
        { ns := "user", serverType := "chat", path := "p" })
      = some { ns := "user", serverType := "chat", service := "chatRemote",
               method := "kick", args := [7, 8] } ∧
    [7, 8] = (((0 : Nat) :: [7, 8] ++ [9]).drop 1).dropLast :=
  envelope_args_strip_first_last clientStarted "chatRemote" "kick"
    { ns := "user", serverType := "chat", path := "p" } 0 [7, 8] 9 rfl

/-- C3: on a STARTED client, a stub call with at least two arguments
throws nothing and its original completion handler is invoked exactly
once — with the routing error forwarded unchanged (and no station
dispatch) when the router reports an error, and by the station with the
call's outcome when routing yields a server id. -/
theorem completion_invoked_exactly_once {α σ μ : Type} (c : Client α σ μ)
    (svc mth : String) (attach : PathItem) (hint : α) (mid : List α) (cbv : α)
    (h : c.state = STATE_STARTED) :
    (proxyCB c svc mth (hint :: mid ++ [cbv]) attach).thrown = none ∧
    (completions (proxyCB c svc mth (hint :: mid ++ [cbv]) attach).events).length
      = 1 ∧
    (proxyCB c svc mth (hint :: mid ++ [cbv]) attach).events
      = Event.routerRoute
          { ns := attach.ns, serverType := attach.serverType,
            service := svc, method := mth, args := mid } hint ::
        (match c.route
            { ns := attach.ns, serverType := attach.serverType,
              service := svc, method := mth, args := mid } hint c.servers with
         | Except.error err => [Event.cbRouteErr err]
         | Except.ok serverId =>
           [Event.stationDispatch serverId
             { ns := attach.ns, serverType := attach.serverType,
               service := svc, method := mth, args := mid }]) := by
  have hs := proxyCB_started_spec c svc mth attach hint mid cbv h
  rcases hr : c.route
      { ns := attach.ns, serverType := attach.serverType,
        service := svc, method := mth, args := mid } hint c.servers
    with err | serverId <;>
    rw [hs] <;> simp [hr, completions]

/-- C3 witness: on a concrete started client routing to `"s1"`, the call
with arguments `[0, 7, 9]` dispatches exactly once to the station. -/
theorem completion_once_witness :
    (proxyCB clientStarted "chatRemote" "kick" ((0 : Nat) :: [7] ++ [9])
        { ns := "user", serverType := "chat", path := "p" }).thrown = none ∧
    (completions (proxyCB clientStarted "chatRemote" "kick"
        ((0 : Nat) :: [7] ++ [9])
        { ns := "user", serverType := "chat", path := "p" }).events).length
      = 1 ∧
    (proxyCB clientStarted "chatRemote" "kick" ((0 : Nat) :: [7] ++ [9])
        { ns := "user", serverType := "chat", path := "p" }).events
      = Event.routerRoute
          { ns := "user", serverType := "chat", service := "chatRemote",
            method := "kick", args := [7] } 0 ::
        [Event.stationDispatch "s1"
          { ns := "user", serverType := "chat", service := "chatRemote",
            method := "kick", args := [7] }] :=
  completion_invoked_exactly_once clientStarted "chatRemote" "kick"
    { ns := "user", serverType := "chat", path := "p" } 0 [7] 9 rfl

/-- C4: on a client whose state is INITED or CLOSED, both `rpcInvoke`
and a stub method invocation throw synchronously, and neither the router
nor the station is ever reached (the event list is empty). -/
theorem invoke_not_started_raises {α σ μ : Type} (c : Client α σ μ)
    (serverId : String) (msg : Msg α) (svc mth : String) (args : List α)
    (attach : PathItem)
    (h : c.state = STATE_INITED ∨ c.state = STATE_CLOSED) :
    rpcInvoke c serverId msg =
      { events := [],
        thrown := some "[pomelo-rpc] fail to do rpc invoke for client is not running" } ∧
    proxyCB c svc mth args attach =
      { events := [],
        thrown := some "[pomelo-rpc] fail to invoke rpc proxy for client is not running" } := by
  rcases h with h | h <;>
    exact ⟨by simp [rpcInvoke, h, STATE_INITED, STATE_CLOSED, STATE_STARTED],
      by simp [proxyCB, h, STATE_INITED, STATE_CLOSED, STATE_STARTED]⟩

/-- C4 witness: on a concrete client in state INITED, both entry points
throw and no event occurs. -/
theorem invoke_not_started_witness :
    rpcInvoke clientInited "s1"
      { ns := "user", serverType := "chat", service := "chatRemote",
        method := "kick", args := [(7 : Nat)] } =
      { events := [],
        thrown := some "[pomelo-rpc] fail to do rpc invoke for client is not running" } ∧
    proxyCB clientInited "chatRemote" "kick" [(0 : Nat), 9]
      { ns := "user", serverType := "chat", path := "p" } =
      { events := [],
        thrown := some "[pomelo-rpc] fail to invoke rpc proxy for client is not running" } :=
  invoke_not_started_raises clientInited "s1"
    { ns := "user", serverType := "chat", service := "chatRemote",
      method := "kick", args := [(7 : Nat)] } "chatRemote" "kick" [0, 9]
    { ns := "user", serverType := "chat", path := "p" } (Or.inl rfl)

/-- C5: on a STARTED client, a stub call with fewer than two arguments
only logs an error naming the namespace, server type, service and
method: nothing is thrown, the completion handler is invoked zero times,
and the router is never called. -/
theorem arity_violation_silent_drop {α σ μ : Type} (c : Client α σ μ)
    (svc mth : String) (args : List α) (attach : PathItem)
    (h1 : c.state = STATE_STARTED) (h2 : args.length < 2) :
    proxyCB c svc mth args attach =
      { events := [Event.logArityError attach.ns attach.serverType svc mth],
        thrown := none } ∧
    completions (proxyCB c svc mth args attach).events = [] := by
  have he : proxyCB c svc mth args attach =
      { events := [Event.logArityError attach.ns attach.serverType svc mth],
        thrown := none } := by
    simp [proxyCB, h1, h2]
  exact ⟨he, by rw [he]; rfl⟩

/-- C5 witness: a concrete one-argument call on a started client is
dropped with only the log event. -/
theorem arity_drop_witness :
    proxyCB clientStarted "chatRemote" "kick" [(5 : Nat)]
      { ns := "user", serverType := "chat", path := "p" } =
      { events := [Event.logArityError "user" "chat" "chatRemote" "kick"],
        thrown := none } ∧
    completions (proxyCB clientStarted "chatRemote" "kick" [(5 : Nat)]
      { ns := "user", serverType := "chat", path := "p" }).events = [] :=
  arity_violation_silent_drop clientStarted "chatRemote" "kick" [5]
    { ns := "user", serverType := "chat", path := "p" } rfl (by decide)

/-- C7: calling `start` on a client whose state is STARTED or CLOSED
immediately and synchronously reports the "rpc client has started."
error to the caller's handler, leaves the client (hence its state)
unchanged, and never invokes the station's start operation. -/
theorem start_when_started_errors {α σ μ : Type} (c : Client α σ μ)
    (stationErr : Option String)
    (h : c.state = STATE_STARTED ∨ c.state = STATE_CLOSED) :
    start c stationErr = (c, [LifeEvent.cbErr "rpc client has started."]) := by
  rcases h with h | h <;>
    simp [start, h, STATE_STARTED, STATE_CLOSED, STATE_INITED]

/-- C7 witness: a second `start` on a concrete started client only
reports the already-started error. -/
theorem start_when_started_witness :
    start clientStarted none =
      (clientStarted, [LifeEvent.cbErr "rpc client has started."]) :=
  start_when_started_errors clientStarted none (Or.inl rfl)

/-- The client state stays within the three declared codes under any
single operation. -/
theorem step_state_cases {α σ μ : Type} (c : Client α σ μ) (op : Op α)
    (h : c.state = STATE_INITED ∨ c.state = STATE_STARTED ∨
      c.state = STATE_CLOSED) :
    (step c op).state = STATE_INITED ∨ (step c op).state = STATE_STARTED ∨
      (step c op).state = STATE_CLOSED := by
  cases op with
  | opStart e =>
    cases e <;> rcases h with h | h | h <;>
      simp [step, start, h, STATE_INITED, STATE_STARTED, STATE_CLOSED]
  | opStop f =>
    rcases h with h | h | h <;>
      simp [step, stop, h, STATE_INITED, STATE_STARTED, STATE_CLOSED]
  | opRpcInvoke serverId msg => exact h
  | opStubCall svc mth args attach => exact h
  | opBefore => exact h
  | opAfter => exact h

/-- The client state stays within the three declared codes under any
sequence of operations. -/
theorem runOps_state_cases {α σ μ : Type} (ops : List (Op α)) :
    ∀ (c : Client α σ μ),
      (c.state = STATE_INITED ∨ c.state = STATE_STARTED ∨
        c.state = STATE_CLOSED) →
      ((runOps c ops).state = STATE_INITED ∨
        (runOps c ops).state = STATE_STARTED ∨
        (runOps c ops).state = STATE_CLOSED) := by
  induction ops with
  | nil => intro c h; exact h
  | cons op t ih => intro c h; exact ih (step c op) (step_state_cases c op h)

/-- A single operation only ever moves the state forward, and each of the
two forward edges is taken only by its operation: to STARTED only by a
`start` whose station attempt succeeded, to CLOSED only from STARTED by a
`stop`. -/
theorem step_forward_spec {α σ μ : Type} (c : Client α σ μ) (op : Op α)
    (h : c.state = STATE_INITED ∨ c.state = STATE_STARTED ∨
      c.state = STATE_CLOSED) :
    StepForward c.state (step c op).state ∧
    ((step c op).state = STATE_STARTED ∧ c.state ≠ STATE_STARTED →
      c.state = STATE_INITED ∧ op = Op.opStart none) ∧
    ((step c op).state = STATE_CLOSED ∧ c.state ≠ STATE_CLOSED →
      c.state = STATE_STARTED ∧
        (op = Op.opStop true ∨ op = Op.opStop false)) := by
  cases op with
  | opStart e =>
    cases e <;> rcases h with h | h | h <;>
      simp [step, start, StepForward, h, STATE_INITED, STATE_STARTED,
        STATE_CLOSED]
  | opStop f =>
    rcases h with h | h | h <;> cases f <;>
      simp [step, stop, StepForward, h, STATE_INITED, STATE_STARTED,
        STATE_CLOSED]
  | opRpcInvoke serverId msg => exact ⟨Or.inl rfl, by simp [step], by simp [step]⟩
  | opStubCall svc mth args attach =>
    exact ⟨Or.inl rfl, by simp [step], by simp [step]⟩
  | opBefore => exact ⟨Or.inl rfl, by simp [step], by simp [step]⟩
  | opAfter => exact ⟨Or.inl rfl, by simp [step], by simp [step]⟩

/-- C9: a constructed client starts in INITED, and along any operation
sequence the state only moves forward along INITED → STARTED → CLOSED:
whenever a step changes it, the state became STARTED only from INITED by
a `start` whose station attempt succeeded, and became CLOSED only from
STARTED by an explicit `stop`. -/
theorem state_monotone_forward {α σ μ : Type}
    (defaultRouter : Msg α → α → σ → Except String String)
    (load : PathItem → Option μ) (opts : JsOpts α σ μ) (c0 : Client α σ μ)
    (ops1 : List (Op α)) (op : Op α)
    (h : create defaultRouter load opts = Except.ok c0) :
    c0.state = STATE_INITED ∧
    StepForward (runOps c0 ops1).state (step (runOps c0 ops1) op).state ∧
    ((step (runOps c0 ops1) op).state = STATE_STARTED ∧
        (runOps c0 ops1).state ≠ STATE_STARTED →
      (runOps c0 ops1).state = STATE_INITED ∧ op = Op.opStart none) ∧
    ((step (runOps c0 ops1) op).state = STATE_CLOSED ∧
        (runOps c0 ops1).state ≠ STATE_CLOSED →
      (runOps c0 ops1).state = STATE_STARTED ∧
        (op = Op.opStop true ∨ op = Op.opStop false)) := by
  have h0 : c0.state = STATE_INITED := by
    unfold create at h
    rcases hp : opts.paths with _ | ps
    · rw [hp] at h; exact absurd h (by simp)
    · rw [hp] at h
      injection h with h1
      rw [← h1]
  exact ⟨h0,
    step_forward_spec (runOps c0 ops1) op
      (runOps_state_cases ops1 c0 (Or.inl h0))⟩

/-- C9 witness: on a concrete constructed client, a successful `start`
followed by a `stop` takes the forward edge STARTED → CLOSED. -/
theorem state_monotone_witness :
    clientInited.state = STATE_INITED ∧
    StepForward (runOps clientInited [Op.opStart none]).state
      (step (runOps clientInited [Op.opStart none]) (Op.opStop true)).state ∧
    ((step (runOps clientInited [Op.opStart none]) (Op.opStop true)).state
          = STATE_STARTED ∧
        (runOps clientInited [Op.opStart none]).state ≠ STATE_STARTED →
      (runOps clientInited [Op.opStart none]).state = STATE_INITED ∧
        (Op.opStop true : Op Nat) = Op.opStart none) ∧
    ((step (runOps clientInited [Op.opStart none]) (Op.opStop true)).state
          = STATE_CLOSED ∧
        (runOps clientInited [Op.opStart none]).state ≠ STATE_CLOSED →
      (runOps clientInited [Op.opStart none]).state = STATE_STARTED ∧
        ((Op.opStop true : Op Nat) = Op.opStop true ∨
          (Op.opStop true : Op Nat) = Op.opStop false)) :=
  state_monotone_forward routeOkS1 loadU optsW clientInited
    [Op.opStart none] (Op.opStop true) rfl

/-- `createNamespace` keeps the registry unchanged when the namespace
already has an entry. -/
theorem createNamespace_of_isSome {μ : Type} (r : Registry μ) (nsp : String)
    (h : (r nsp).isSome = true) : createNamespace nsp r = r := by
  rcases hr : r nsp with _ | inner
  · rw [hr] at h; exact absurd h (by simp)
  · simp [createNamespace, hr]

/-- Storing a stub under namespace `ns2` leaves the registry unchanged at
every other namespace key. -/
theorem buildStore_apply_ne {μ : Type} (r : Registry μ) (ns2 st2 : String)
    (m2 : μ) (k : String) (hk : k ≠ ns2) :
    storeStub (createNamespace ns2 r) ns2 st2 m2 k = r k := by
  rcases hr : r ns2 with _ | inner <;>
    simp [storeStub, createNamespace, setNs, hr, hk]

/-- Storing a stub under a namespace that already holds `inner` replaces
only the `st2` slot of that namespace. -/
theorem buildStore_apply_eq {μ : Type} (r : Registry μ) (ns2 st2 : String)
    (m2 : μ) (inner : String → Option μ) (hr : r ns2 = some inner) :
    storeStub (createNamespace ns2 r) ns2 st2 m2 ns2
      = some (fun k => if k = st2 then some m2 else inner k) := by
  simp [storeStub, createNamespace, setNs, hr]

/-- One build-pass iteration never replaces or removes a stub stored
under a different (namespace, serverType) key. -/
theorem regLookup_buildStep_preserve {μ : Type} (load : PathItem → Option μ)
    (it : PathItem) (r : Registry μ) (ns st : String) (m : μ)
    (hne : ¬(it.ns = ns ∧ it.serverType = st))
    (h : regLookup r ns st = some m) :
    regLookup (buildStep load r it) ns st = some m := by
  rcases hl : load it with _ | m2
  · have hb : buildStep load r it = r := by simp [buildStep, hl]
    rw [hb]; exact h
  · have hb : buildStep load r it
        = storeStub (createNamespace it.ns r) it.ns it.serverType m2 := by
      simp [buildStep, hl]
    rw [hb]
    unfold regLookup at h ⊢
    by_cases hns : it.ns = ns
    · subst hns
      rcases hr : r it.ns with _ | inner
      · rw [hr] at h; exact absurd h (by simp)
      · rw [hr] at h
        rw [buildStore_apply_eq r it.ns it.serverType m2 inner hr]
        have hst : ¬ st = it.serverType := fun hh => hne ⟨rfl, hh.symm⟩
        simpa [hst] using h
    · have hk : ns ≠ it.ns := fun hh => hns hh.symm
      rw [buildStore_apply_ne r it.ns it.serverType m2 ns hk]
      exact h

/-- A stub survives the rest of the build pass when no remaining
descriptor shares its (namespace, serverType) key. -/
theorem regLookup_foldl_preserve {μ : Type} (load : PathItem → Option μ)
    (ns st : String) (m : μ) :
    ∀ (rest : List PathItem) (r : Registry μ),
      regLookup r ns st = some m →
      (∀ it ∈ rest, ¬(it.ns = ns ∧ it.serverType = st)) →
      regLookup (rest.foldl (buildStep load) r) ns st = some m := by
  intro rest
  induction rest with
  | nil => intro r h _; exact h
  | cons it t ih =>
    intro r h hall
    exact ih (buildStep load r it)
      (regLookup_buildStep_preserve load it r ns st m
        (hall it (List.mem_cons_self it t)) h)
      (fun it2 hit2 => hall it2 (List.mem_cons_of_mem it hit2))

/-- No client operation ever touches the namespace registry after
construction. -/
theorem step_preserves_proxies {α σ μ : Type} (c : Client α σ μ)
    (op : Op α) : (step c op).proxies = c.proxies := by
  cases op with
  | opStart e =>
    cases e <;> by_cases hc : c.state > STATE_INITED <;>
      simp [step, start, hc]
  | opStop f =>
    by_cases hc : c.state ≠ STATE_STARTED <;> simp [step, stop, hc]
  | opRpcInvoke serverId msg => rfl
  | opStubCall svc mth args attach => rfl
  | opBefore => rfl
  | opAfter => rfl

/-- C10 (amended): during the build pass the namespace registry is
additive up to same-key replacement — creating the namespace-level
mapping is idempotent (it never clobbers an existing namespace's
entries), a stored stub is never replaced or removed by a later
descriptor with a DIFFERENT (namespace, serverType) key (a later
descriptor with the SAME key that yields a module overwrites it), and
after the pass no client operation ever mutates the registry. -/
theorem registry_additive_amended {α σ μ : Type}
    (load : PathItem → Option μ) (paths rest : List PathItem)
    (ns st : String) (m : μ) (r : Registry μ) (nsp : String)
    (c : Client α σ μ) (op : Op α)
    (h1 : regLookup (generateProxies load paths) ns st = some m)
    (h2 : ∀ it ∈ rest, ¬(it.ns = ns ∧ it.serverType = st))
    (h3 : (r nsp).isSome = true) :
    regLookup (generateProxies load (paths ++ rest)) ns st = some m ∧
    createNamespace nsp r = r ∧
    (step c op).proxies = c.proxies := by
  refine ⟨?_, createNamespace_of_isSome r nsp h3, step_preserves_proxies c op⟩
  unfold generateProxies
  rw [List.foldl_append (buildStep load) (emptyRegistry μ) paths rest]
  exact regLookup_foldl_preserve load ns st m rest
    (paths.foldl (buildStep load) (emptyRegistry μ)) h1 h2

/-- C10 witness: the stub stored for `("n", "t")` survives two later
descriptors with other keys, namespace creation on an existing namespace
is the identity, and a stop leaves a concrete client's registry
untouched. -/
theorem registry_additive_witness :
    regLookup (generateProxies pathStubLoad
        ([{ ns := "n", serverType := "t", path := "p1" }] ++
         [{ ns := "n", serverType := "u", path := "p2" },
          { ns := "m", serverType := "t", path := "p3" }])) "n" "t"
      = some "p1" ∧
    createNamespace "n" regW = regW ∧
    (step clientWS (Op.opStop true)).proxies = clientWS.proxies :=
  registry_additive_amended pathStubLoad
    [{ ns := "n", serverType := "t", path := "p1" }]
    [{ ns := "n", serverType := "u", path := "p2" },
     { ns := "m", serverType := "t", path := "p3" }]
    "n" "t" "p1" regW "n" clientWS (Op.opStop true)
    rfl (by decide) rfl

end RpcClient
